import Mathlib

/-
  Verification development for the SB3204C BERT instrument control software.

  Shallow embedding of:
  - the channel mapper (src/BertChannel.cpp),
  - the PCA9557 I/O-expander driver (src/PCA9557.cpp),
  - the worker/orchestrator lifecycle (src/BertWorker.cpp),
  - the relevant constants of globals.h / globals.cpp.

  Machine integers (uint8_t) are modelled as Nat with explicit `% 256`
  wrapping at the points where C++ performs a conversion to uint8_t.
  C++ `int` error codes are modelled as Int.  Qt signal emissions are
  modelled as explicit event lists; I2C transactions are modelled as an
  explicit operation trace together with an environment that decides
  whether each transport call succeeds.  Q_ASSERT is a no-op in release
  builds and is modelled as such.
-/

namespace SB3204

/-! ## globals.h constants -/

namespace globals

def OK : Int := 0
def GEN_ERROR : Int := -1
def NOT_CONNECTED : Int := -4
def WRITE_ERROR : Int := -7
def MISSING_GT1724 : Int := -50
def MISSING_LMX : Int := -51
def MISSING_LMX_DEFS : Int := -52
def MISSING_PCA : Int := -53
def MISSING_EEPROM : Int := -54

/-- Component I2C address tables (globals.cpp, dual GT1724 board build). -/
def I2C_ADDRESSES_GT1724 : List Nat := [0x12, 0x14, 0x16, 0x10]

def I2C_ADDRESSES_LMX2594 : List Nat := [0x28, 0x2C]

def I2C_ADDRESSES_PCA9557 : List Nat := [0x1C, 0x18]

def I2C_ADDRESSES_M24M02 : List Nat := [0x50, 0x54]

def I2C_ADDRESSES_SI5340 : List Nat := [0x76, 0x72]

end globals

/-! ## Channel mapper (src/BertChannel.cpp)

The BertChannel constructor derives the physical indices from the 1-based
displayed channel number.  C++ `int` division/modulo on the non-negative
values arising for channel ≥ 1 (the caller contract, spec §4.4) agrees
with Nat division/modulo, so the fields are modelled over Nat. -/

/-- The per-chip core-temperature reading slot.  In the source the label
text is a single formatted string `"<Master|Slave> <group>:"`; the two
arguments of the format call are kept as separate fields. -/
structure TempSlot where
  label : String
  group : Nat
deriving DecidableEq

/-- Formatted label text as built by the source (`QString("%1 %2:")`). -/
def TempSlot.text (t : TempSlot) : String :=
  t.label ++ " " ++ toString t.group ++ ":"

structure BertChannel where
  channel : Nat
  core : Nat
  board : Nat
  pgLane : Nat
  edLane : Nat
  esLane : Nat
  ctLane : Nat
  tempSlot : Option TempSlot
deriving DecidableEq

/-- BertChannel::BertChannel (src/BertChannel.cpp lines 9-35): member
initialisers plus the core-temperature slot created when `ctLane % 4 == 0`,
with label `(ctLane < 5) ? "Master" : "Slave"` and group `(core % 2) + 1`. -/
def BertChannel.ofChannel (channel : Nat) : BertChannel :=
  let core := (channel - 1) / 2
  let ctLane := (channel - 1) * 2
  { channel := channel
    core := core
    board := (channel - 1) / 4
    pgLane := (channel - 1) * 2
    edLane := channel * 2 - 1
    esLane := channel * 2 - 1
    ctLane := ctLane
    tempSlot :=
      if ctLane % 4 == 0 then
        some { label := if ctLane < 5 then "Master" else "Slave"
               group := core % 2 + 1 }
      else none }

/-- C6: for every logical channel number c ≥ 1 the channel mapper yields
core index ⌊(c−1)/2⌋, board index ⌊(c−1)/4⌋, pattern-generator lane
(c−1)·2, error-detector lane = eye-scan lane = c·2−1, and temperature
lane (c−1)·2 (Nat division is floor division). -/
theorem channel_mapping_formulas (c : Nat) (h : 1 ≤ c) :
    (BertChannel.ofChannel c).core = (c - 1) / 2 ∧
    (BertChannel.ofChannel c).board = (c - 1) / 4 ∧
    (BertChannel.ofChannel c).pgLane = (c - 1) * 2 ∧
    (BertChannel.ofChannel c).edLane = c * 2 - 1 ∧
    (BertChannel.ofChannel c).esLane = c * 2 - 1 ∧
    (BertChannel.ofChannel c).ctLane = (c - 1) * 2 :=
  ⟨rfl, rfl, rfl, rfl, rfl, rfl⟩

/-- Witness for C6 at the concrete channel 3. -/
theorem channel_mapping_formulas_witness :
    (BertChannel.ofChannel 3).core = (3 - 1) / 2 ∧
    (BertChannel.ofChannel 3).board = (3 - 1) / 4 ∧
    (BertChannel.ofChannel 3).pgLane = (3 - 1) * 2 ∧
    (BertChannel.ofChannel 3).edLane = 3 * 2 - 1 ∧
    (BertChannel.ofChannel 3).esLane = 3 * 2 - 1 ∧
    (BertChannel.ofChannel 3).ctLane = (3 - 1) * 2 :=
  channel_mapping_formulas 3 (by decide)

/-- C7 counterexample: channel 3 (temperature lane 4) does have a
temperature slot with group 2, but its label is "Master" (because
ctLane = 4 < 5), not "Slave" as the claim states. -/
theorem channel3_label_counterexample :
    (BertChannel.ofChannel 3).tempSlot = some { label := "Master", group := 2 } ∧
    (BertChannel.ofChannel 3).tempSlot ≠ some { label := "Slave", group := 2 } := by
  refine ⟨rfl, ?_⟩
  decide

/-- C7 (amended): a temperature slot exists exactly when the channel's
temperature lane mod 4 = 0; its label is "Master" or "Slave" according to
whether the temperature lane is < 5, and its group is (core mod 2)+1; in
particular channel 3 (temp-lane 4) has a temperature slot labelled
"Master" (4 < 5) with group 2. -/
theorem temp_slot_rule (c : Nat) (h : 1 ≤ c) :
    ((BertChannel.ofChannel c).tempSlot.isSome ↔
        (BertChannel.ofChannel c).ctLane % 4 = 0) ∧
    (∀ s : TempSlot, (BertChannel.ofChannel c).tempSlot = some s →
        s.label = (if (BertChannel.ofChannel c).ctLane < 5 then "Master" else "Slave") ∧
        s.group = (BertChannel.ofChannel c).core % 2 + 1) ∧
    (BertChannel.ofChannel 3).tempSlot = some { label := "Master", group := 2 } := by
  refine ⟨?_, ?_, rfl⟩
  · simp only [BertChannel.ofChannel]
    by_cases hmod : (c - 1) * 2 % 4 = 0
    · simp [hmod]
    · simp [hmod]
  · intro s hs
    simp only [BertChannel.ofChannel] at hs ⊢
    by_cases hmod : (c - 1) * 2 % 4 = 0
    · simp [hmod] at hs
      subst hs
      exact ⟨rfl, rfl⟩
    · simp [hmod] at hs

/-- Witness for C7 (amended) at the concrete channel 3. -/
theorem temp_slot_rule_witness :
    ((BertChannel.ofChannel 3).tempSlot.isSome ↔
        (BertChannel.ofChannel 3).ctLane % 4 = 0) ∧
    (∀ s : TempSlot, (BertChannel.ofChannel 3).tempSlot = some s →
        s.label = (if (BertChannel.ofChannel 3).ctLane < 5 then "Master" else "Slave") ∧
        s.group = (BertChannel.ofChannel 3).core % 2 + 1) ∧
    (BertChannel.ofChannel 3).tempSlot = some { label := "Master", group := 2 } :=
  temp_slot_rule 3 (by decide)

/-! ## PCA9557 I/O-expander driver (src/PCA9557.cpp)

The driver instance state holds the register cache members; the device's
latched output-side registers are modelled by `HW`.  Each embedded
operation takes an environment fixing the outcome of each of its
transport calls and returns, besides its C++ return value and the updated
state, the trace of I2C bus operations it attempted.  A transport call
whose outcome is a failure is modelled as leaving the device register
unchanged (the write was not delivered). -/

/-- One I2C bus operation attempted through the transport. -/
inductive Op where
  | ack
  | read8 (reg : Nat)
  | write8 (reg : Nat) (val : Nat)
deriving DecidableEq

namespace PCA9557

/-- Modelled from the spec: the four PCA9557 register indices (input,
output, polarity inversion, configuration).  Their numeric values live in
src/PCA9557.h, which is not part of the sources; only their identity
matters to the claims.  `REG_OUPUT` keeps the source's spelling. -/
def REG_INPUT : Nat := 0

def REG_OUPUT : Nat := 1

def REG_POLARITY : Nat := 2

def REG_CONFIG : Nat := 3

def TRIGGER_DIVIDE_BITMASK : Nat := 0xC0

def TRIGGER_DIVIDE_LOOKUP : List Nat := [0xC0, 0x80, 0x40]

def TRIGGER_DIVIDE_DEFAULT_INDEX : Nat := 0

def EEPROM_WC_BITMASK : Nat := 0x04

def EEPROM_WRITE_ENABLE : Nat := 0x00

def EEPROM_WRITE_DISABLE : Nat := 0x04

/-- Register-cache members of a PCA9557 driver instance. -/
structure State where
  regOutput : Nat
  regInput : Nat
  regConfig : Nat
  regPolarity : Nat
deriving DecidableEq

/-- Output-side registers latched by the PCA9557 device itself. -/
structure HW where
  output : Nat
  polarity : Nat
  config : Nat
deriving DecidableEq

/-- Transport environment for an operation performing at most one write
and one read: whether the port is open, the outcome of a write8 call, and
the outcome plus delivered byte of a read8 call. -/
structure Comms where
  portOpen : Bool
  write8Result : Int
  read8Result : Int
  read8Value : Nat
deriving DecidableEq

/-- Bitwise complement of a uint8_t value: `(uint8_t)(~m)` in C++. -/
def compl8 (m : Nat) : Nat := 255 ^^^ (m % 256)

/-- PCA9557::writePins (lines 403-415): fail with NOT_CONNECTED if the
port is closed (no bus access), otherwise write the cached regOutput to
the output register and propagate the transport result. -/
def writePins (c : Comms) (s : State) (hw : HW) : Int × HW × List Op :=
  if !c.portOpen then (globals.NOT_CONNECTED, hw, [])
  else if c.write8Result ≠ globals.OK then
    (c.write8Result, hw, [Op.write8 REG_OUPUT s.regOutput])
  else (globals.OK, { hw with output := s.regOutput }, [Op.write8 REG_OUPUT s.regOutput])

/-- PCA9557::setPins (lines 337-341): `regOutput = value; return writePins();`
— the cache is replaced before the hardware write is attempted. -/
def setPins (c : Comms) (s : State) (hw : HW) (value : Nat) : Int × State × HW × List Op :=
  let s1 := { s with regOutput := value % 256 }
  let (r, hw1, t) := writePins c s1 hw
  (r, s1, hw1, t)

/-- PCA9557::updatePins (lines 379-391):
`regNew = (regOutput & (~mask)) | value; return setPins(regNew);`
(the error-message signal emissions on failure carry no state). -/
def updatePins (c : Comms) (s : State) (hw : HW) (mask value : Nat) :
    Int × State × HW × List Op :=
  let regNew := (s.regOutput &&& compl8 mask) ||| (value % 256)
  setPins c s hw regNew

/-- PCA9557::readPins (lines 427-439): fail with NOT_CONNECTED if the
port is closed (no bus access), otherwise read the input register into
the regInput cache (left unchanged when the read fails). -/
def readPins (c : Comms) (s : State) : Int × State × List Op :=
  if !c.portOpen then (globals.NOT_CONNECTED, s, [])
  else if c.read8Result ≠ globals.OK then (c.read8Result, s, [Op.read8 REG_INPUT])
  else (globals.OK, { s with regInput := c.read8Value % 256 }, [Op.read8 REG_INPUT])

/-- PCA9557::getPins (lines 357-362): performs a real hardware read, then
returns the (possibly stale, on failure) regInput cache together with the
readPins result. -/
def getPins (c : Comms) (s : State) : Int × Nat × State × List Op :=
  let (r, s1, t) := readPins c s
  (r, s1.regInput, s1, t)

inductive PinDirection where
  | OUTPUT
  | NORMAL_INPUT
  | INVERTED_INPUT
deriving DecidableEq

/-- Transport environment for configurePins: outcomes of its two write8
calls (configuration register, then polarity register). -/
structure CfgComms where
  portOpen : Bool
  writeConfigResult : Int
  writePolarityResult : Int
deriving DecidableEq

/-- PCA9557::configurePins (lines 232-285): build and write the
configuration register (bit set = input), then build and write the
polarity-inversion register (bit set = inverted input); each failed write
aborts, with the cache members assigned before the corresponding write. -/
def configurePins (c : CfgComms) (s : State) (hw : HW)
    (p0 p1 p2 p3 p4 p5 p6 p7 : PinDirection) : Int × State × HW × List Op :=
  if !c.portOpen then (globals.NOT_CONNECTED, s, hw, [])
  else
    let regConfig :=
      (if p0 ≠ PinDirection.OUTPUT then 0x01 else 0) |||
      (if p1 ≠ PinDirection.OUTPUT then 0x02 else 0) |||
      (if p2 ≠ PinDirection.OUTPUT then 0x04 else 0) |||
      (if p3 ≠ PinDirection.OUTPUT then 0x08 else 0) |||
      (if p4 ≠ PinDirection.OUTPUT then 0x10 else 0) |||
      (if p5 ≠ PinDirection.OUTPUT then 0x20 else 0) |||
      (if p6 ≠ PinDirection.OUTPUT then 0x40 else 0) |||
      (if p7 ≠ PinDirection.OUTPUT then 0x80 else 0)
    let s1 := { s with regConfig := regConfig }
    if c.writeConfigResult ≠ globals.OK then
      (c.writeConfigResult, s1, hw, [Op.write8 REG_CONFIG regConfig])
    else
      let hw1 := { hw with config := regConfig }
      let regPolarity :=
        (if p0 = PinDirection.INVERTED_INPUT then 0x01 else 0) |||
        (if p1 = PinDirection.INVERTED_INPUT then 0x02 else 0) |||
        (if p2 = PinDirection.INVERTED_INPUT then 0x04 else 0) |||
        (if p3 = PinDirection.INVERTED_INPUT then 0x08 else 0) |||
        (if p4 = PinDirection.INVERTED_INPUT then 0x10 else 0) |||
        (if p5 = PinDirection.INVERTED_INPUT then 0x20 else 0) |||
        (if p6 = PinDirection.INVERTED_INPUT then 0x40 else 0) |||
        (if p7 = PinDirection.INVERTED_INPUT then 0x80 else 0)
      let s2 := { s1 with regPolarity := regPolarity }
      let ops := [Op.write8 REG_CONFIG regConfig, Op.write8 REG_POLARITY regPolarity]
      if c.writePolarityResult ≠ globals.OK then (c.writePolarityResult, s2, hw1, ops)
      else (globals.OK, s2, { hw1 with polarity := regPolarity }, ops)

/-- Transport environment for init: outcomes of its three write8 calls
(configuration, polarity, output). -/
structure InitComms where
  portOpen : Bool
  writeConfigResult : Int
  writePolarityResult : Int
  writeOutputResult : Int
deriving DecidableEq

/-- PCA9557::init (lines 114-148): configurePins with the fixed
chip-wiring table (IO2, IO6, IO7 outputs; the rest normal inputs), then
setPins(default trigger-divide value | EEPROM write disable). -/
def init (c : InitComms) (s : State) (hw : HW) : Int × State × HW × List Op :=
  let (r1, s1, hw1, t1) :=
    configurePins { portOpen := c.portOpen, writeConfigResult := c.writeConfigResult,
                    writePolarityResult := c.writePolarityResult } s hw
      PinDirection.NORMAL_INPUT PinDirection.NORMAL_INPUT PinDirection.OUTPUT
      PinDirection.NORMAL_INPUT PinDirection.NORMAL_INPUT PinDirection.NORMAL_INPUT
      PinDirection.OUTPUT PinDirection.OUTPUT
  if r1 ≠ globals.OK then (r1, s1, hw1, t1)
  else
    let (r2, s2, hw2, t2) :=
      setPins { portOpen := c.portOpen, write8Result := c.writeOutputResult,
                read8Result := globals.OK, read8Value := 0 } s1 hw1
        (TRIGGER_DIVIDE_LOOKUP.getD TRIGGER_DIVIDE_DEFAULT_INDEX 0 ||| EEPROM_WRITE_DISABLE)
    (r2, s2, hw2, t1 ++ t2)

/-- Transport environment for ping: outcomes of the address ack probe,
the initial polarity read, the 0x55 test write, the read-back, and the
restore write.  The device at the address is modelled as a present
PCA9557: a successful read delivers the current register value and a
successful write latches it. -/
structure PingComms where
  portOpen : Bool
  ackResult : Int
  readPolarityResult : Int
  writeTestResult : Int
  readBackResult : Int
  writeRestoreResult : Int
deriving DecidableEq

/-- PCA9557::ping (lines 51-92).  When the port is closed the source
executes `return globals::NOT_CONNECTED;` in a function returning bool:
the non-zero value -4 converts to `true`.  Otherwise: ack probe, read the
polarity register, write test byte 0x55, read it back, restore the
original value with the restore write result ignored, and report whether
the read-back equals 0x55.  Each transport failure before the restore
returns false immediately. -/
def ping (c : PingComms) (hw : HW) : Bool × HW × List Op :=
  if !c.portOpen then (true, hw, [])
  else if c.ackResult ≠ globals.OK then (false, hw, [Op.ack])
  else if c.readPolarityResult ≠ globals.OK then
    (false, hw, [Op.ack, Op.read8 REG_POLARITY])
  else
    let orig := hw.polarity
    if c.writeTestResult ≠ globals.OK then
      (false, hw, [Op.ack, Op.read8 REG_POLARITY, Op.write8 REG_POLARITY 0x55])
    else
      let hw1 := { hw with polarity := 0x55 }
      if c.readBackResult ≠ globals.OK then
        (false, hw1,
         [Op.ack, Op.read8 REG_POLARITY, Op.write8 REG_POLARITY 0x55,
          Op.read8 REG_POLARITY])
      else
        let hw2 := if c.writeRestoreResult = globals.OK then { hw1 with polarity := orig }
                   else hw1
        ((hw1.polarity == 0x55), hw2,
         [Op.ack, Op.read8 REG_POLARITY, Op.write8 REG_POLARITY 0x55,
          Op.read8 REG_POLARITY, Op.write8 REG_POLARITY orig])

/-- Run a sequence of updatePins(mask, value) calls under a fixed
transport environment, collecting the overall bus trace. -/
def updateSeq (c : Comms) (s : State) (hw : HW) : List (Nat × Nat) → State × HW × List Op
  | [] => (s, hw, [])
  | (m, v) :: rest =>
    let (_, s1, hw1, t) := updatePins c s hw m v
    let (s2, hw2, t2) := updateSeq c s1 hw1 rest
    (s2, hw2, t ++ t2)

/-- All-zero device register file used as a concrete starting point. -/
def hw0 : HW := { output := 0, polarity := 0, config := 0 }

/-- All-zero driver instance cache used as a concrete starting point. -/
def s0 : State := { regOutput := 0, regInput := 0, regConfig := 0, regPolarity := 0 }

/-- Transport environment in which every operation succeeds. -/
def commOK : Comms :=
  { portOpen := true, write8Result := globals.OK, read8Result := globals.OK, read8Value := 0 }

/-- Transport environment with the port not open. -/
def closedComms : Comms :=
  { portOpen := false, write8Result := globals.OK, read8Result := globals.OK, read8Value := 0 }

/-- Ping environment with the port not open. -/
def closedPing : PingComms :=
  { portOpen := false, ackResult := globals.OK, readPolarityResult := globals.OK,
    writeTestResult := globals.OK, readBackResult := globals.OK,
    writeRestoreResult := globals.OK }

/-- configurePins environment with the port not open. -/
def closedCfg : CfgComms :=
  { portOpen := false, writeConfigResult := globals.OK, writePolarityResult := globals.OK }

/-- init environment with the port not open. -/
def closedInitComms : InitComms :=
  { portOpen := false, writeConfigResult := globals.OK, writePolarityResult := globals.OK,
    writeOutputResult := globals.OK }

/-- Ping environment in which every transport call succeeds except the
final restore write of the polarity-inversion register. -/
def pingRestoreFailEnv : PingComms :=
  { portOpen := true, ackResult := globals.OK, readPolarityResult := globals.OK,
    writeTestResult := globals.OK, readBackResult := globals.OK,
    writeRestoreResult := globals.WRITE_ERROR }

end PCA9557

/-- C5 counterexample: a ping whose restore write fails (all earlier
steps succeeding, original polarity value 0) returns `true` — it claims
the device is present even though a step failed — and leaves the
polarity-inversion register holding the test byte 0x55 instead of the
original value 0, so the hardware is not left in its pre-probe state. -/
theorem ping_restore_fail_counterexample :
    (PCA9557.ping PCA9557.pingRestoreFailEnv PCA9557.hw0).1 = true ∧
    (PCA9557.ping PCA9557.pingRestoreFailEnv PCA9557.hw0).2.1.polarity = 0x55 ∧
    PCA9557.hw0.polarity = 0 ∧ (0x55 : Nat) ≠ 0 := by
  refine ⟨rfl, rfl, rfl, by decide⟩

/-- C5 (amended): with the port open, a failure of the address ack, the
initial polarity read or the test write makes ping report false with the
register unchanged; after those succeed, a failed read-back makes ping
report false but skips the restore, leaving the register at 0x55; when
the read-back succeeds ping reports true (the modelled device latched
0x55), restoring the original value only when the restore write succeeds
and leaving 0x55 behind when it fails — a ping in which only the restore
write fails still reports presence. -/
theorem ping_restore_behavior (c : PCA9557.PingComms) (hw : PCA9557.HW)
    (hopen : c.portOpen = true) :
    ((c.ackResult ≠ globals.OK ∨ c.readPolarityResult ≠ globals.OK ∨
        c.writeTestResult ≠ globals.OK) →
      (PCA9557.ping c hw).1 = false ∧ (PCA9557.ping c hw).2.1 = hw) ∧
    (c.ackResult = globals.OK → c.readPolarityResult = globals.OK →
      c.writeTestResult = globals.OK → c.readBackResult ≠ globals.OK →
      (PCA9557.ping c hw).1 = false ∧
      (PCA9557.ping c hw).2.1 = { hw with polarity := 0x55 }) ∧
    (c.ackResult = globals.OK → c.readPolarityResult = globals.OK →
      c.writeTestResult = globals.OK → c.readBackResult = globals.OK →
      (PCA9557.ping c hw).1 = true ∧
      (PCA9557.ping c hw).2.1 = (if c.writeRestoreResult = globals.OK then hw
                                 else { hw with polarity := 0x55 })) := by
  refine ⟨?_, ?_, ?_⟩
  · rintro (h | h | h)
    · simp [PCA9557.ping, hopen, h]
    · by_cases hack : c.ackResult = globals.OK
      · simp [PCA9557.ping, hopen, hack, h]
      · simp [PCA9557.ping, hopen, hack]
    · by_cases hack : c.ackResult = globals.OK
      · by_cases hrd : c.readPolarityResult = globals.OK
        · simp [PCA9557.ping, hopen, hack, hrd, h]
        · simp [PCA9557.ping, hopen, hack, hrd]
      · simp [PCA9557.ping, hopen, hack]
  · intro h1 h2 h3 h4
    simp [PCA9557.ping, hopen, h1, h2, h3, h4]
  · intro h1 h2 h3 h4
    constructor
    · simp [PCA9557.ping, hopen, h1, h2, h3, h4]
    · by_cases h5 : c.writeRestoreResult = globals.OK
      · simp [PCA9557.ping, hopen, h1, h2, h3, h4, h5]
      · simp [PCA9557.ping, hopen, h1, h2, h3, h4, h5]

/-- Witness for C5 (amended) at a concrete environment in which the
read-back fails. -/
theorem ping_restore_behavior_witness :
    (PCA9557.ping
        { portOpen := true, ackResult := globals.OK, readPolarityResult := globals.OK,
          writeTestResult := globals.OK, readBackResult := globals.GEN_ERROR,
          writeRestoreResult := globals.OK } PCA9557.hw0).1 = false ∧
    (PCA9557.ping
        { portOpen := true, ackResult := globals.OK, readPolarityResult := globals.OK,
          writeTestResult := globals.OK, readBackResult := globals.GEN_ERROR,
          writeRestoreResult := globals.OK } PCA9557.hw0).2.1
      = { PCA9557.hw0 with polarity := 0x55 } :=
  (ping_restore_behavior _ PCA9557.hw0 rfl).2.1 rfl rfl rfl (by decide)

/-- C8: evaluation of every driver operation with the transport port not
open.  The int-returning operations (writePins, setPins, updatePins,
readPins, getPins, configurePins, init) all return NOT_CONNECTED and
attempt no bus operation; `ping`, however, executes
`return globals::NOT_CONNECTED;` inside a `bool` function, so the
non-zero code -4 converts to `true` — ping reports the device as present
instead of failing with the not-connected error kind (it still performs
no bus access). -/
theorem closed_port_operations :
    (PCA9557.ping PCA9557.closedPing PCA9557.hw0).1 = true ∧
    (PCA9557.ping PCA9557.closedPing PCA9557.hw0).2.2 = [] ∧
    PCA9557.writePins PCA9557.closedComms PCA9557.s0 PCA9557.hw0
      = (globals.NOT_CONNECTED, PCA9557.hw0, []) ∧
    (PCA9557.setPins PCA9557.closedComms PCA9557.s0 PCA9557.hw0 0xC4).1
      = globals.NOT_CONNECTED ∧
    (PCA9557.setPins PCA9557.closedComms PCA9557.s0 PCA9557.hw0 0xC4).2.2.2 = [] ∧
    (PCA9557.updatePins PCA9557.closedComms PCA9557.s0 PCA9557.hw0 0xC0 0x80).1
      = globals.NOT_CONNECTED ∧
    (PCA9557.updatePins PCA9557.closedComms PCA9557.s0 PCA9557.hw0 0xC0 0x80).2.2.2 = [] ∧
    (PCA9557.readPins PCA9557.closedComms PCA9557.s0).1 = globals.NOT_CONNECTED ∧
    (PCA9557.readPins PCA9557.closedComms PCA9557.s0).2.2 = [] ∧
    (PCA9557.getPins PCA9557.closedComms PCA9557.s0).1 = globals.NOT_CONNECTED ∧
    (PCA9557.getPins PCA9557.closedComms PCA9557.s0).2.2.2 = [] ∧
    (PCA9557.configurePins PCA9557.closedCfg PCA9557.s0 PCA9557.hw0
        PCA9557.PinDirection.NORMAL_INPUT PCA9557.PinDirection.NORMAL_INPUT
        PCA9557.PinDirection.OUTPUT PCA9557.PinDirection.NORMAL_INPUT
        PCA9557.PinDirection.NORMAL_INPUT PCA9557.PinDirection.NORMAL_INPUT
        PCA9557.PinDirection.OUTPUT PCA9557.PinDirection.OUTPUT).1
      = globals.NOT_CONNECTED ∧
    (PCA9557.configurePins PCA9557.closedCfg PCA9557.s0 PCA9557.hw0
        PCA9557.PinDirection.NORMAL_INPUT PCA9557.PinDirection.NORMAL_INPUT
        PCA9557.PinDirection.OUTPUT PCA9557.PinDirection.NORMAL_INPUT
        PCA9557.PinDirection.NORMAL_INPUT PCA9557.PinDirection.NORMAL_INPUT
        PCA9557.PinDirection.OUTPUT PCA9557.PinDirection.OUTPUT).2.2.2 = [] ∧
    (PCA9557.init PCA9557.closedInitComms PCA9557.s0 PCA9557.hw0).1
      = globals.NOT_CONNECTED ∧
    (PCA9557.init PCA9557.closedInitComms PCA9557.s0 PCA9557.hw0).2.2.2 = [] := by
  decide

/-- C10: when the hardware write issued by setPins or updatePins fails
(port closed or transport error), the return value is not OK, the
hardware output register is untouched, yet the instance's cached
regOutput has already been replaced by the new value; a later updatePins
then composes its read-modify-write against the never-written value. -/
theorem cache_not_rolled_back (c c2 : PCA9557.Comms) (s : PCA9557.State)
    (hw : PCA9557.HW) (v m w : Nat)
    (hfail : c.portOpen = false ∨ c.write8Result ≠ globals.OK) :
    (PCA9557.setPins c s hw v).1 ≠ globals.OK ∧
    (PCA9557.setPins c s hw v).2.1.regOutput = v % 256 ∧
    (PCA9557.setPins c s hw v).2.2.1 = hw ∧
    (PCA9557.updatePins c s hw m w).1 ≠ globals.OK ∧
    (PCA9557.updatePins c s hw m w).2.1.regOutput
      = ((s.regOutput &&& PCA9557.compl8 m) ||| w % 256) % 256 ∧
    (PCA9557.updatePins c2 (PCA9557.setPins c s hw v).2.1
        (PCA9557.setPins c s hw v).2.2.1 m w).2.1.regOutput
      = (((v % 256) &&& PCA9557.compl8 m) ||| w % 256) % 256 := by
  rcases hfail with h | h
  · simp [PCA9557.setPins, PCA9557.updatePins, PCA9557.writePins, h]
    decide
  · by_cases hp : c.portOpen
    · simp [PCA9557.setPins, PCA9557.updatePins, PCA9557.writePins, h, hp]
    · simp [PCA9557.setPins, PCA9557.updatePins, PCA9557.writePins, h, hp]
      decide

/-- Witness for C10: a failed write through a closed port at concrete
arguments. -/
theorem cache_not_rolled_back_witness :
    (PCA9557.setPins PCA9557.closedComms PCA9557.s0 PCA9557.hw0 0xC4).1 ≠ globals.OK ∧
    (PCA9557.setPins PCA9557.closedComms PCA9557.s0 PCA9557.hw0 0xC4).2.1.regOutput
      = 0xC4 % 256 ∧
    (PCA9557.setPins PCA9557.closedComms PCA9557.s0 PCA9557.hw0 0xC4).2.2.1
      = PCA9557.hw0 ∧
    (PCA9557.updatePins PCA9557.closedComms PCA9557.s0 PCA9557.hw0 0xC0 0x80).1
      ≠ globals.OK ∧
    (PCA9557.updatePins PCA9557.closedComms PCA9557.s0 PCA9557.hw0 0xC0 0x80).2.1.regOutput
      = ((PCA9557.s0.regOutput &&& PCA9557.compl8 0xC0) ||| 0x80 % 256) % 256 ∧
    (PCA9557.updatePins PCA9557.commOK
        (PCA9557.setPins PCA9557.closedComms PCA9557.s0 PCA9557.hw0 0xC4).2.1
        (PCA9557.setPins PCA9557.closedComms PCA9557.s0 PCA9557.hw0 0xC4).2.2.1
        0xC0 0x80).2.1.regOutput
      = (((0xC4 % 256) &&& PCA9557.compl8 0xC0) ||| 0x80 % 256) % 256 :=
  cache_not_rolled_back PCA9557.closedComms PCA9557.commOK PCA9557.s0 PCA9557.hw0
    0xC4 0xC0 0x80 (Or.inl rfl)

/-- C4 counterexample: starting from a zero cache, the call sequence
updatePins(0xFF, 0x00) then updatePins(0x01, 0x02) leaves bit 1 of the
output cache (and of the hardware output register) set, although bit 1
lies outside the most recent call's mask 0x01 and the previous call
affecting bit 1 (mask 0xFF) left it clear: a value with bits outside its
mask clobbers pins the mask was supposed to protect. -/
theorem updatePins_unmasked_value_counterexample :
    ((PCA9557.updateSeq PCA9557.commOK PCA9557.s0 PCA9557.hw0
        [(0xFF, 0x00)]).1.regOutput.testBit 1 = false) ∧
    (Nat.testBit 0x01 1 = false) ∧
    ((PCA9557.updateSeq PCA9557.commOK PCA9557.s0 PCA9557.hw0
        [(0xFF, 0x00), (0x01, 0x02)]).1.regOutput.testBit 1 = true) ∧
    ((PCA9557.updateSeq PCA9557.commOK PCA9557.s0 PCA9557.hw0
        [(0xFF, 0x00), (0x01, 0x02)]).2.1.output.testBit 1 = true) := by
  decide

namespace PCA9557

lemma testBit_false_of_lt_256 {x b : Nat} (hx : x < 256) (hb : 8 ≤ b) :
    x.testBit b = false := by
  refine Nat.testBit_lt_two_pow (lt_of_lt_of_le hx ?_)
  calc (256 : Nat) = 2 ^ 8 := by norm_num
    _ ≤ 2 ^ b := Nat.pow_le_pow_right (by norm_num) hb

/-- Effect of one masked read-modify-write on a single cache bit, when
the new value has no bits outside the mask. -/
lemma updateBit (old m v b : Nat) (hold : old < 256)
    (hv : (v % 256) &&& compl8 m = 0) :
    (((old &&& compl8 m) ||| v % 256) % 256).testBit b
      = if (m % 256).testBit b then (v % 256).testBit b else old.testBit b := by
  have hand : old &&& compl8 m < 256 := lt_of_le_of_lt Nat.and_le_left hold
  have hmod : v % 256 < 256 := Nat.mod_lt _ (by norm_num)
  have h256 : (old &&& compl8 m) ||| v % 256 < 256 := by
    have hand2 : old &&& compl8 m < 2 ^ 8 := by simpa using hand
    have hmod2 : v % 256 < 2 ^ 8 := by simpa using hmod
    have h := Nat.or_lt_two_pow hand2 hmod2
    simpa using h
  have hz : ((v % 256).testBit b && (compl8 m).testBit b) = false := by
    have h := congrArg (fun x => Nat.testBit x b) hv
    simpa [Nat.testBit_and] using h
  have hcb : (compl8 m).testBit b = (decide (b < 8) ^^ (m % 256).testBit b) := by
    have h255 : (255 : Nat).testBit b = decide (b < 8) := by
      have h := Nat.testBit_two_pow_sub_one 8 b
      norm_num at h
      exact h
    simp [compl8, Nat.testBit_xor, h255]
  rw [Nat.mod_eq_of_lt h256, Nat.testBit_or, Nat.testBit_and]
  by_cases hb : b < 8
  · by_cases hm : (m % 256).testBit b
    · have hcbf : (compl8 m).testBit b = false := by simp [hcb, hb, hm]
      simp [hcbf, hm]
    · have hcbt : (compl8 m).testBit b = true := by simp [hcb, hb, hm]
      have hvb : (v % 256).testBit b = false := by
        by_cases hvb : (v % 256).testBit b
        · rw [hvb, hcbt] at hz
          simp at hz
        · simpa using hvb
      simp [hcbt, hm, hvb]
  · have hge : 8 ≤ b := le_of_not_lt hb
    have hmb : (m % 256).testBit b = false :=
      testBit_false_of_lt_256 (Nat.mod_lt _ (by norm_num)) hge
    have hvb : (v % 256).testBit b = false := testBit_false_of_lt_256 hmod hge
    have hob : old.testBit b = false := testBit_false_of_lt_256 hold hge
    have hcbf : (compl8 m).testBit b = false := by simp [hcb, hb, hmb]
    simp [hmb, hvb, hob, hcbf]

/-- Closed form of updatePins on an open port: the cache always becomes
`(regOutput & ~mask) | value` (as uint8), the trace is exactly one full
write of that value to the output register, and the hardware register
takes the value exactly when the write succeeds. -/
lemma updatePins_eval (c : Comms) (s : State) (hw : HW) (m v : Nat)
    (hopen : c.portOpen = true) :
    updatePins c s hw m v
      = ((if c.write8Result ≠ globals.OK then c.write8Result else globals.OK),
         { s with regOutput := ((s.regOutput &&& compl8 m) ||| v % 256) % 256 },
         (if c.write8Result ≠ globals.OK then hw
          else { hw with output := ((s.regOutput &&& compl8 m) ||| v % 256) % 256 }),
         [Op.write8 REG_OUPUT (((s.regOutput &&& compl8 m) ||| v % 256) % 256)]) := by
  by_cases h : c.write8Result = globals.OK <;>
    simp [updatePins, setPins, writePins, hopen, h]

lemma updateSeq_trace_full (c : Comms) (hopen : c.portOpen = true) :
    ∀ (calls : List (Nat × Nat)) (s : State) (hw : HW),
      ∀ op ∈ (updateSeq c s hw calls).2.2, ∃ wv, op = Op.write8 REG_OUPUT wv
  | [], s, hw => by simp [updateSeq]
  | (m, v) :: rest, s, hw => by
    intro op hop
    rw [updateSeq, updatePins_eval c s hw m v hopen] at hop
    simp only [List.mem_append] at hop
    rcases hop with hop | hop
    · simp at hop
      exact ⟨_, hop⟩
    · exact updateSeq_trace_full c hopen rest _ _ op hop

lemma updateSeq_retention (c : Comms) (hopen : c.portOpen = true) :
    ∀ (calls : List (Nat × Nat)) (s : State) (hw : HW),
      s.regOutput < 256 →
      (∀ p ∈ calls, (p.2 % 256) &&& compl8 p.1 = 0) →
      ∀ b : Nat,
        ((updateSeq c s hw calls).1.regOutput).testBit b
          = calls.foldl
              (fun acc p => if (p.1 % 256).testBit b then (p.2 % 256).testBit b else acc)
              (s.regOutput.testBit b)
  | [], s, hw, _, _, b => by simp [updateSeq]
  | (m, v) :: rest, s, hw, hs, hm, b => by
    have hv : (v % 256) &&& compl8 m = 0 := hm (m, v) (List.mem_cons_self _ _)
    rw [updateSeq, updatePins_eval c s hw m v hopen]
    simp only [List.foldl_cons]
    rw [updateSeq_retention c hopen rest _ _ (Nat.mod_lt _ (by norm_num))
      (fun p hp => hm p (List.mem_cons_of_mem _ hp)) b]
    congr 1
    exact updateBit s.regOutput m v b hs hv

end PCA9557

/-- C4 (amended): for every sequence of updatePins(mask, value) calls on
an open port, each call issues exactly one full write of the output
register with the value `(cachedOutput & ~mask) | value` (never a partial
hardware write for a subset of pins); and — provided each call's value
has no bits outside its own mask, as every caller in the repository
guarantees — after each call every bit outside the most recent call's
mask retains the value left by the last earlier call whose mask covered
it (or the initial cache value if none did). -/
theorem updatePins_masked_write_retention (c : PCA9557.Comms) (s : PCA9557.State)
    (hw : PCA9557.HW) (calls : List (Nat × Nat)) (hopen : c.portOpen = true)
    (hs : s.regOutput < 256)
    (hmask : ∀ p ∈ calls, (p.2 % 256) &&& PCA9557.compl8 p.1 = 0) :
    (∀ (s2 : PCA9557.State) (hw2 : PCA9557.HW) (m v : Nat),
        (PCA9557.updatePins c s2 hw2 m v).2.2.2
          = [Op.write8 PCA9557.REG_OUPUT
              (((s2.regOutput &&& PCA9557.compl8 m) ||| v % 256) % 256)]) ∧
    (∀ op ∈ (PCA9557.updateSeq c s hw calls).2.2,
        ∃ wv, op = Op.write8 PCA9557.REG_OUPUT wv) ∧
    (∀ b : Nat,
        ((PCA9557.updateSeq c s hw calls).1.regOutput).testBit b
          = calls.foldl
              (fun acc p => if (p.1 % 256).testBit b then (p.2 % 256).testBit b else acc)
              (s.regOutput.testBit b)) := by
  refine ⟨?_, PCA9557.updateSeq_trace_full c hopen calls s hw,
    PCA9557.updateSeq_retention c hopen calls s hw hs hmask⟩
  intro s2 hw2 m v
  rw [PCA9557.updatePins_eval c s2 hw2 m v hopen]

/-- Witness for C4 (amended): the in-repo trigger-divide and EEPROM
write-control call pattern (values within their masks) at concrete
inputs. -/
theorem updatePins_masked_write_retention_witness :
    (∀ (s2 : PCA9557.State) (hw2 : PCA9557.HW) (m v : Nat),
        (PCA9557.updatePins PCA9557.commOK s2 hw2 m v).2.2.2
          = [Op.write8 PCA9557.REG_OUPUT
              (((s2.regOutput &&& PCA9557.compl8 m) ||| v % 256) % 256)]) ∧
    (∀ op ∈ (PCA9557.updateSeq PCA9557.commOK PCA9557.s0 PCA9557.hw0
        [(0xC0, 0x80), (0x04, 0x04)]).2.2,
        ∃ wv, op = Op.write8 PCA9557.REG_OUPUT wv) ∧
    (∀ b : Nat,
        ((PCA9557.updateSeq PCA9557.commOK PCA9557.s0 PCA9557.hw0
            [(0xC0, 0x80), (0x04, 0x04)]).1.regOutput).testBit b
          = [((0xC0 : Nat), (0x80 : Nat)), (0x04, 0x04)].foldl
              (fun acc p => if (p.1 % 256).testBit b then (p.2 % 256).testBit b else acc)
              (PCA9557.s0.regOutput.testBit b)) :=
  updatePins_masked_write_retention PCA9557.commOK PCA9557.s0 PCA9557.hw0
    [(0xC0, 0x80), (0x04, 0x04)] rfl (by decide) (by decide)

/-! ## Worker / orchestrator (src/BertWorker.cpp)

The worker owns the transport and the per-family device sets.  Qt signal
emissions are modelled as an ordered list of `Sig` events; serial-port
I/O and device pings are decided by an environment `Env`.  The
`Q_ASSERT` calls in CommsConnect/CommsDisconnect are no-ops in release
builds and are modelled as such; `flagWorkerReady` is taken as true (the
worker thread is running).  Message strings are kept only as far as they
are apostrophe-free literals of the source. -/

/-- The five chip families. -/
inductive Family where
  | si5340
  | m24m02
  | lmx2594
  | pca9557
  | gt1724
deriving DecidableEq

/-- Position of a family in the fixed initialisation order of
BertWorker::initComponents (SI5340, M24M02, LMX2594, PCA9557, GT1724). -/
def Family.initRank : Family → Nat
  | .si5340 => 0
  | .m24m02 => 1
  | .lmx2594 => 2
  | .pca9557 => 3
  | .gt1724 => 4

/-- Position of a family in the fixed teardown order of
BertWorker::shutdownComponents (GT1724, LMX2594, PCA9557, M24M02,
SI5340). -/
def Family.teardownRank : Family → Nat
  | .gt1724 => 0
  | .lmx2594 => 1
  | .pca9557 => 2
  | .m24m02 => 3
  | .si5340 => 4

/-- Events observable from the worker: Qt signals (messages, results,
connect status, device-added notifications) plus the transport
open/close and device-record deletions performed during teardown. -/
inductive Sig where
  | showMessage (text : String)
  | workerResult (r : Int)
  | statusConnect (ok : Bool)
  | deviceAdded (f : Family) (idOrLane : Nat)
  | released (f : Family) (id : Nat)
  | openedPort
  | closedPort
deriving DecidableEq

def isStatusConnectB : Sig → Bool
  | .statusConnect _ => true
  | _ => false

def isReleasedB : Sig → Bool
  | .released _ _ => true
  | _ => false

/-- Hardware-owning state of the worker: transport open flag and the
per-family device sets (each device record kept as its I2C address; the
position in the list is the dense per-family device ID, and for GT1724
the lane offset is 4 × position). -/
structure WorkerState where
  portOpen : Bool
  gt1724Set : List Nat
  m24m02Set : List Nat
  lmxClockSet : List Nat
  pca9557Set : List Nat
  si5340Set : List Nat
deriving DecidableEq

/-- The worker's state before any connect. -/
def WorkerState.disconnected : WorkerState :=
  { portOpen := false, gt1724Set := [], m24m02Set := [], lmxClockSet := [],
    pca9557Set := [], si5340Set := [] }

/-- Environment for a connect attempt: the outcome of comms->open and,
for each family, which candidate I2C addresses answer their ping. -/
structure Env where
  openResult : Int
  pingGT1724 : Nat → Bool
  pingM24M02 : Nat → Bool
  pingLMX2594 : Nat → Bool
  pingPCA9557 : Nat → Bool
  pingSI5340 : Nat → Bool

/-- Device-added signals for the devices found in one family probe loop:
ids are assigned densely from 0 in probe order; for GT1724 the emitted
number is the lane offset (4 per chip), for the others the device ID. -/
def addedSigs (f : Family) (mult : Nat) (devs : List Nat) : List Sig :=
  (List.range devs.length).map (fun i => Sig.deviceAdded f (mult * i))

/-- BertWorker::findComponents (lines 200-322): probe the candidate
addresses family by family (GT1724, M24M02, LMX2594, PCA9557, SI5340);
append a device record for each acknowledging address; return a fatal
missing-component code as soon as a family's set is empty after its
probe loop — except the SI5340 family, whose absence is tolerated (the
check is commented out in the source). -/
def findComponents (env : Env) (s : WorkerState) : WorkerState × List Sig × Int :=
  let gtFound := globals.I2C_ADDRESSES_GT1724.filter env.pingGT1724
  let s1 : WorkerState := { s with gt1724Set := s.gt1724Set ++ gtFound }
  let sig1 := addedSigs Family.gt1724 4 gtFound
  if s1.gt1724Set.isEmpty then
    (s1, sig1 ++ [Sig.showMessage "Core module not found!"], globals.MISSING_GT1724)
  else
    let eeFound := globals.I2C_ADDRESSES_M24M02.filter env.pingM24M02
    let s2 : WorkerState := { s1 with m24m02Set := s1.m24m02Set ++ eeFound }
    let sig2 := sig1 ++ addedSigs Family.m24m02 1 eeFound
    if s2.m24m02Set.isEmpty then
      (s2, sig2 ++ [Sig.showMessage "Data EEPROM not found!"], globals.MISSING_EEPROM)
    else
      let lmxFound := globals.I2C_ADDRESSES_LMX2594.filter env.pingLMX2594
      let s3 : WorkerState := { s2 with lmxClockSet := s2.lmxClockSet ++ lmxFound }
      let sig3 := sig2 ++ addedSigs Family.lmx2594 1 lmxFound
      if s3.lmxClockSet.isEmpty then
        (s3, sig3 ++ [Sig.showMessage "Clock synthesizer module not found!"],
         globals.MISSING_LMX)
      else
        let pcaFound := globals.I2C_ADDRESSES_PCA9557.filter env.pingPCA9557
        let s4 : WorkerState := { s3 with pca9557Set := s3.pca9557Set ++ pcaFound }
        let sig4 := sig3 ++ addedSigs Family.pca9557 1 pcaFound
        if s4.pca9557Set.isEmpty then
          (s4, sig4 ++ [Sig.showMessage "IO controller module not found!"],
           globals.MISSING_PCA)
        else
          let siFound := globals.I2C_ADDRESSES_SI5340.filter env.pingSI5340
          let s5 : WorkerState := { s4 with si5340Set := s4.si5340Set ++ siFound }
          let sig5 := sig4 ++ addedSigs Family.si5340 1 siFound
          (s5, sig5, globals.OK)

/-- Deletions performed by one family's teardown loop: the set is drained
from the last element to the first. -/
def releaseAll (f : Family) (devs : List Nat) : List (Family × Nat) :=
  (List.range devs.length).reverse.map (fun i => (f, i))

/-- BertWorker::shutdownComponents (lines 486-540): delete every device
record, family by family in the order GT1724, LMX2594, PCA9557, M24M02,
SI5340, draining each set last-to-first. -/
def shutdownComponents (s : WorkerState) : WorkerState × List (Family × Nat) :=
  ({ portOpen := s.portOpen, gt1724Set := [], m24m02Set := [], lmxClockSet := [],
     pca9557Set := [], si5340Set := [] },
   releaseAll Family.gt1724 s.gt1724Set ++
     (releaseAll Family.lmx2594 s.lmxClockSet ++
       (releaseAll Family.pca9557 s.pca9557Set ++
         (releaseAll Family.m24m02 s.m24m02Set ++
           releaseAll Family.si5340 s.si5340Set))))

/-- BertWorker::CommsDisconnect (lines 102-112): shut down all
components, close the port if it is open, then report success and a
disconnected status. -/
def CommsDisconnect (s : WorkerState) : WorkerState × List Sig :=
  let s1 := (shutdownComponents s).1
  let rel := (shutdownComponents s).2
  ({ s1 with portOpen := false },
   rel.map (fun e => Sig.released e.1 e.2) ++
     ((if s1.portOpen then [Sig.closedPort] else []) ++
      [Sig.workerResult globals.OK, Sig.showMessage "Disconnected.",
       Sig.statusConnect false]))

/-- BertWorker::CommsConnect (lines 41-93): short-circuit to success if
already connected; otherwise open the port (reporting failure if the
open fails); then run discovery and dispatch on its result — OK connects,
MISSING_LMX_DEFS/MISSING_GT1724 trigger a full CommsDisconnect, and every
other code (including the other missing-component codes) reports a
successful connect without teardown. -/
def CommsConnect (env : Env) (s : WorkerState) : WorkerState × List Sig :=
  if s.portOpen then
    (s, [Sig.showMessage "Connected.", Sig.statusConnect true])
  else if env.openResult ≠ globals.OK then
    (s, [Sig.workerResult env.openResult, Sig.statusConnect false,
         Sig.showMessage "Failed to connect to instrument"])
  else
    let fc := findComponents env { s with portOpen := true }
    let pre := [Sig.openedPort,
                Sig.showMessage "Comms Open. Checking system components..."]
    if fc.2.2 = globals.OK then
      (fc.1, pre ++ fc.2.1 ++ [Sig.showMessage "Connected.", Sig.statusConnect true])
    else if fc.2.2 = globals.MISSING_LMX_DEFS ∨ fc.2.2 = globals.MISSING_GT1724 then
      ((CommsDisconnect fc.1).1, pre ++ fc.2.1 ++ (CommsDisconnect fc.1).2 ++
        [Sig.showMessage "Connect FAILED: Error setting up system components!"])
    else
      (fc.1, pre ++ fc.2.1 ++ [Sig.statusConnect true])

/-- One entry of the initialisation trace: the family and discovery-order
index of a device whose init() was invoked, with the result it returned. -/
abbrev InitEntry := Family × Nat × Int

/-- One family's init loop (BertWorker::initComponents): call init() on
each device in discovery order starting at index i; the first failing
result aborts the loop and is reported. -/
def initFamily (f : Family) : Nat → List Int → List InitEntry × Option Int
  | _, [] => ([], none)
  | i, r :: rest =>
    if r = globals.OK then
      ((f, i, r) :: (initFamily f (i + 1) rest).1, (initFamily f (i + 1) rest).2)
    else ([(f, i, r)], some r)

/-- Sequencing of family init loops with early return on failure. -/
def thenFamily (acc : List InitEntry × Option Int) (f : Family) (rs : List Int) :
    List InitEntry × Option Int :=
  match acc.2 with
  | some e => (acc.1, some e)
  | none => (acc.1 ++ (initFamily f 0 rs).1, (initFamily f 0 rs).2)

/-- BertWorker::initComponents (lines 388-479): initialise the SI5340s,
then the M24M02s, then the LMX2594s, then the PCA9557s, then the GT1724s,
each family in discovery order, returning the first non-OK init() result
immediately (no further init calls), or OK when every device initialised.
The arguments list, per family in discovery order, the result each
device's init() would return. -/
def initComponents (si eep lmx pca gt : List Int) : List InitEntry × Int :=
  let acc :=
    thenFamily (thenFamily (thenFamily (thenFamily (thenFamily ([], none)
      Family.si5340 si) Family.m24m02 eep) Family.lmx2594 lmx) Family.pca9557 pca)
      Family.gt1724 gt
  (acc.1, acc.2.getD globals.OK)

/-- BertWorker::InitComponents slot (lines 143-152): runs initComponents
and emits its result; it performs no teardown and no state change
whatever the result. -/
def WorkerInitComponents (si eep lmx pca gt : List Int) (s : WorkerState) :
    WorkerState × List Sig :=
  let r := (initComponents si eep lmx pca gt).2
  (s, [Sig.showMessage "Comms Open. Initializing system components...",
       Sig.workerResult r, Sig.showMessage "Ready."])

/-- Connect environment in which no ping answers (used as a concrete
input by witnesses). -/
def envNone : Env :=
  { openResult := globals.OK, pingGT1724 := fun _ => false,
    pingM24M02 := fun _ => false, pingLMX2594 := fun _ => false,
    pingPCA9557 := fun _ => false, pingSI5340 := fun _ => false }

/-- C9: calling CommsDisconnect when already disconnected (port closed,
no device records) leaves the state unchanged and reports success
(WorkerResult OK) plus the disconnected status; calling CommsConnect
when the transport is already connected short-circuits to a success
report with the state unchanged and no port-open action (the emitted
event list contains no openedPort). -/
theorem connect_disconnect_idempotent :
    (∀ (env : Env) (s : WorkerState), s.portOpen = true →
        CommsConnect env s
          = (s, [Sig.showMessage "Connected.", Sig.statusConnect true])) ∧
    (∀ s : WorkerState, s.portOpen = false → s.gt1724Set = [] → s.m24m02Set = [] →
        s.lmxClockSet = [] → s.pca9557Set = [] → s.si5340Set = [] →
        CommsDisconnect s
          = (s, [Sig.workerResult globals.OK, Sig.showMessage "Disconnected.",
                 Sig.statusConnect false])) := by
  constructor
  · intro env s h
    simp [CommsConnect, h]
  · rintro ⟨p, g, m, l, pc, si⟩ h1 h2 h3 h4 h5 h6
    simp only at h1 h2 h3 h4 h5 h6
    subst h1 h2 h3 h4 h5 h6
    rfl

/-- Witness for C9 at concrete states. -/
theorem connect_disconnect_idempotent_witness :
    CommsConnect envNone { WorkerState.disconnected with portOpen := true }
      = ({ WorkerState.disconnected with portOpen := true },
         [Sig.showMessage "Connected.", Sig.statusConnect true]) ∧
    CommsDisconnect WorkerState.disconnected
      = (WorkerState.disconnected,
         [Sig.workerResult globals.OK, Sig.showMessage "Disconnected.",
          Sig.statusConnect false]) :=
  ⟨connect_disconnect_idempotent.1 envNone _ rfl,
   connect_disconnect_idempotent.2 WorkerState.disconnected rfl rfl rfl rfl rfl rfl⟩

/-! ### Teardown ordering (C3) -/

/-- Teardown order actually implemented by shutdownComponents:
GT1724 first, then clock synthesizer, then I/O expander, then EEPROM,
then reference clock; within a family, reverse discovery order. -/
def tdLt (a b : Family × Nat) : Prop :=
  a.1.teardownRank < b.1.teardownRank ∨ (a.1 = b.1 ∧ b.2 < a.2)

/-- Teardown family order asserted by the claim (strict reverse of the
initialisation order): BERT core, I/O expander, clock synthesizer,
EEPROM, reference clock. -/
def Family.claimedTeardownRank : Family → Nat
  | .gt1724 => 0
  | .pca9557 => 1
  | .lmx2594 => 2
  | .m24m02 => 3
  | .si5340 => 4

/-- The teardown order asserted by the claim, as a relation. -/
def claimedTdLt (a b : Family × Nat) : Prop :=
  a.1.claimedTeardownRank < b.1.claimedTeardownRank ∨ (a.1 = b.1 ∧ b.2 < a.2)

lemma releaseAll_fam (f : Family) (xs : List Nat) :
    ∀ e ∈ releaseAll f xs, e.1 = f := by
  intro e he
  simp [releaseAll] at he
  obtain ⟨i, -, rfl⟩ := he
  rfl

lemma releaseAll_pairwise (f : Family) (xs : List Nat) :
    (releaseAll f xs).Pairwise tdLt := by
  rw [releaseAll, List.pairwise_map, List.pairwise_reverse]
  refine (List.pairwise_lt_range _).imp ?_
  intro a b hab
  exact Or.inr ⟨rfl, hab⟩

lemma releaseAll_rank_gt (f : Family) (xs : List Nat) (k : Nat)
    (h : k < f.teardownRank) : ∀ e ∈ releaseAll f xs, k < e.1.teardownRank := by
  intro e he
  rw [releaseAll_fam f xs e he]
  exact h

lemma append_rank_gt {l₁ l₂ : List (Family × Nat)} {k : Nat}
    (h1 : ∀ e ∈ l₁, k < e.1.teardownRank) (h2 : ∀ e ∈ l₂, k < e.1.teardownRank) :
    ∀ e ∈ l₁ ++ l₂, k < e.1.teardownRank := by
  intro e he
  rcases List.mem_append.mp he with h | h
  · exact h1 e h
  · exact h2 e h

lemma pairwise_group_app (f : Family) (xs : List Nat) {l : List (Family × Nat)}
    (hl : l.Pairwise tdLt) (hlb : ∀ e ∈ l, f.teardownRank < e.1.teardownRank) :
    (releaseAll f xs ++ l).Pairwise tdLt := by
  rw [List.pairwise_append]
  refine ⟨releaseAll_pairwise f xs, hl, ?_⟩
  intro a ha b hb
  exact Or.inl (by rw [releaseAll_fam f xs a ha]; exact hlb b hb)

lemma shutdown_trace_pairwise (s : WorkerState) :
    (shutdownComponents s).2.Pairwise tdLt := by
  show (releaseAll Family.gt1724 s.gt1724Set ++
     (releaseAll Family.lmx2594 s.lmxClockSet ++
       (releaseAll Family.pca9557 s.pca9557Set ++
         (releaseAll Family.m24m02 s.m24m02Set ++
           releaseAll Family.si5340 s.si5340Set)))).Pairwise tdLt
  have h4 : (releaseAll Family.m24m02 s.m24m02Set ++
      releaseAll Family.si5340 s.si5340Set).Pairwise tdLt :=
    pairwise_group_app Family.m24m02 s.m24m02Set (releaseAll_pairwise _ _)
      (releaseAll_rank_gt _ _ _ (by decide))
  have h3 := pairwise_group_app Family.pca9557 s.pca9557Set h4
    (append_rank_gt (releaseAll_rank_gt _ _ _ (by decide))
      (releaseAll_rank_gt _ _ _ (by decide)))
  have h2 := pairwise_group_app Family.lmx2594 s.lmxClockSet h3
    (append_rank_gt (releaseAll_rank_gt _ _ _ (by decide))
      (append_rank_gt (releaseAll_rank_gt _ _ _ (by decide))
        (releaseAll_rank_gt _ _ _ (by decide))))
  exact pairwise_group_app Family.gt1724 s.gt1724Set h2
    (append_rank_gt (releaseAll_rank_gt _ _ _ (by decide))
      (append_rank_gt (releaseAll_rank_gt _ _ _ (by decide))
        (append_rank_gt (releaseAll_rank_gt _ _ _ (by decide))
          (releaseAll_rank_gt _ _ _ (by decide)))))

lemma released_before_closed {pre rest : List Sig}
    (hpre : ∀ x ∈ pre, x ≠ Sig.closedPort)
    (hrest : ∀ x ∈ rest, isReleasedB x = false) :
    ∀ (i j : Nat) (hi : i < (pre ++ rest).length) (hj : j < (pre ++ rest).length),
      (pre ++ rest).get ⟨i, hi⟩ = Sig.closedPort →
      isReleasedB ((pre ++ rest).get ⟨j, hj⟩) = true → j < i := by
  intro i j hi hj hc hr
  have hjlt : j < pre.length := by
    by_contra hby
    push_neg at hby
    have hj2 : j - pre.length < rest.length := by
      rw [List.length_append] at hj
      omega
    have heq : (pre ++ rest).get ⟨j, hj⟩ = rest.get ⟨j - pre.length, hj2⟩ := by
      rw [List.get_append_right] <;> omega
    rw [heq] at hr
    exact absurd hr (by rw [hrest _ (List.get_mem rest _ _)]; decide)
  have hige : pre.length ≤ i := by
    by_contra hby
    push_neg at hby
    rw [List.get_append i hby] at hc
    exact hpre _ (List.get_mem pre _ _) hc
  omega

/-- C3 counterexample: from a state holding one clock synthesizer and
one I/O expander, the teardown trace deletes the LMX2594 record before
the PCA9557 record — the claimed strict reverse-of-init order (BERT
core, I/O expander, clock synthesizer, EEPROM, reference clock) demands
the I/O expander first, so the trace violates it. -/
theorem teardown_lmx_before_pca_counterexample :
    (shutdownComponents
        { portOpen := true, gt1724Set := [], m24m02Set := [],
          lmxClockSet := [0x28], pca9557Set := [0x1C], si5340Set := [] }).2
      = [(Family.lmx2594, 0), (Family.pca9557, 0)] ∧
    ¬ (shutdownComponents
        { portOpen := true, gt1724Set := [], m24m02Set := [],
          lmxClockSet := [0x28], pca9557Set := [0x1C], si5340Set := [] }).2.Pairwise
        claimedTdLt := by
  refine ⟨rfl, ?_⟩
  intro h
  rw [show (shutdownComponents
      { portOpen := true, gt1724Set := [], m24m02Set := [],
        lmxClockSet := [0x28], pca9557Set := [0x1C], si5340Set := [] }).2
      = [(Family.lmx2594, 0), (Family.pca9557, 0)] from rfl] at h
  have h2 := (List.pairwise_cons.mp h).1 (Family.pca9557, 0) (by simp)
  rcases h2 with h2 | ⟨h2, -⟩
  · exact absurd h2 (by decide)
  · exact absurd h2 (by decide)

/-- C3 (amended): CommsDisconnect tears down every device record family
by family in the order BERT core, clock synthesizer, I/O expander,
EEPROM, reference clock (the source swaps the clock synthesizer and the
I/O expander relative to strict reverse-of-init), draining each family in
reverse discovery order; afterwards every set is empty and the port is
closed, and in the emitted event sequence every device release precedes
the transport-close event. -/
theorem disconnect_teardown_order (s : WorkerState) :
    ((shutdownComponents s).2.Pairwise tdLt) ∧
    ((CommsDisconnect s).1 = WorkerState.disconnected) ∧
    (∀ (i j : Nat) (hi : i < (CommsDisconnect s).2.length)
        (hj : j < (CommsDisconnect s).2.length),
      (CommsDisconnect s).2.get ⟨i, hi⟩ = Sig.closedPort →
      isReleasedB ((CommsDisconnect s).2.get ⟨j, hj⟩) = true → j < i) := by
  refine ⟨shutdown_trace_pairwise s, rfl, ?_⟩
  refine released_before_closed ?_ ?_
  · intro x hx
    rw [List.mem_map] at hx
    obtain ⟨e, -, rfl⟩ := hx
    simp
  · intro x hx
    rcases List.mem_append.mp hx with h | h
    · by_cases hp : (shutdownComponents s).1.portOpen
      · simp [hp] at h
        subst h
        rfl
      · simp [hp] at h
    · simp at h
      rcases h with rfl | rfl | rfl <;> rfl

/-- Witness for C3 (amended) at a concrete populated state. -/
theorem disconnect_teardown_order_witness :
    ((shutdownComponents
        { portOpen := true, gt1724Set := [0x12, 0x14], m24m02Set := [0x50],
          lmxClockSet := [0x28], pca9557Set := [0x1C],
          si5340Set := [0x76] }).2.Pairwise tdLt) ∧
    ((CommsDisconnect
        { portOpen := true, gt1724Set := [0x12, 0x14], m24m02Set := [0x50],
          lmxClockSet := [0x28], pca9557Set := [0x1C],
          si5340Set := [0x76] }).1 = WorkerState.disconnected) ∧
    (∀ (i j : Nat)
        (hi : i < (CommsDisconnect
          { portOpen := true, gt1724Set := [0x12, 0x14], m24m02Set := [0x50],
            lmxClockSet := [0x28], pca9557Set := [0x1C],
            si5340Set := [0x76] }).2.length)
        (hj : j < (CommsDisconnect
          { portOpen := true, gt1724Set := [0x12, 0x14], m24m02Set := [0x50],
            lmxClockSet := [0x28], pca9557Set := [0x1C],
            si5340Set := [0x76] }).2.length),
      (CommsDisconnect
          { portOpen := true, gt1724Set := [0x12, 0x14], m24m02Set := [0x50],
            lmxClockSet := [0x28], pca9557Set := [0x1C],
            si5340Set := [0x76] }).2.get ⟨i, hi⟩ = Sig.closedPort →
      isReleasedB ((CommsDisconnect
          { portOpen := true, gt1724Set := [0x12, 0x14], m24m02Set := [0x50],
            lmxClockSet := [0x28], pca9557Set := [0x1C],
            si5340Set := [0x76] }).2.get ⟨j, hj⟩) = true → j < i) :=
  disconnect_teardown_order
    { portOpen := true, gt1724Set := [0x12, 0x14], m24m02Set := [0x50],
      lmxClockSet := [0x28], pca9557Set := [0x1C], si5340Set := [0x76] }

/-! ### Connect failure policy (C1) -/

lemma addedSigs_status_filter (f : Family) (mult : Nat) (devs : List Nat) :
    (addedSigs f mult devs).filter isStatusConnectB = [] := by
  rw [List.filter_eq_nil_iff]
  intro a ha
  rw [addedSigs, List.mem_map] at ha
  obtain ⟨i, -, rfl⟩ := ha
  simp [isStatusConnectB]

/-- Discovery emits device-added and message events only — never a
connect-status event. -/
lemma findComponents_status_filter (env : Env) (s : WorkerState) :
    ((findComponents env s).2.1).filter isStatusConnectB = [] := by
  rw [findComponents]
  dsimp only
  repeat' split
  all_goals simp [List.filter_append, addedSigs_status_filter, isStatusConnectB]

lemma findComponents_portOpen (env : Env) (s : WorkerState) :
    (findComponents env s).1.portOpen = s.portOpen := by
  rw [findComponents]
  dsimp only
  repeat' split
  all_goals rfl

/-- The disconnect event sequence carries exactly one connect-status
event: the final `statusConnect false`. -/
lemma disconnect_status_filter (s : WorkerState) :
    ((CommsDisconnect s).2).filter isStatusConnectB = [Sig.statusConnect false] := by
  show ((shutdownComponents s).2.map (fun e => Sig.released e.1 e.2) ++
      ((if (shutdownComponents s).1.portOpen then [Sig.closedPort] else []) ++
       [Sig.workerResult globals.OK, Sig.showMessage "Disconnected.",
        Sig.statusConnect false])).filter isStatusConnectB
    = [Sig.statusConnect false]
  rw [List.filter_append]
  have h1 : ((shutdownComponents s).2.map
      (fun e => Sig.released e.1 e.2)).filter isStatusConnectB = [] := by
    rw [List.filter_eq_nil_iff]
    intro a ha
    rw [List.mem_map] at ha
    obtain ⟨e, -, rfl⟩ := ha
    simp [isStatusConnectB]
  rw [h1, List.filter_append]
  by_cases hp : (shutdownComponents s).1.portOpen <;>
    simp [hp, isStatusConnectB]

/-- Evaluation of CommsConnect from a closed port with a successful
open: the outcome is decided by the discovery result code. -/
lemma CommsConnect_open_eval (env : Env) (s : WorkerState) (h1 : s.portOpen = false)
    (h2 : env.openResult = globals.OK) :
    CommsConnect env s =
      (if (findComponents env { s with portOpen := true }).2.2 = globals.OK then
        ((findComponents env { s with portOpen := true }).1,
         [Sig.openedPort, Sig.showMessage "Comms Open. Checking system components..."] ++
           (findComponents env { s with portOpen := true }).2.1 ++
           [Sig.showMessage "Connected.", Sig.statusConnect true])
      else if (findComponents env { s with portOpen := true }).2.2
              = globals.MISSING_LMX_DEFS ∨
            (findComponents env { s with portOpen := true }).2.2
              = globals.MISSING_GT1724 then
        ((CommsDisconnect (findComponents env { s with portOpen := true }).1).1,
         [Sig.openedPort, Sig.showMessage "Comms Open. Checking system components..."] ++
           (findComponents env { s with portOpen := true }).2.1 ++
           (CommsDisconnect (findComponents env { s with portOpen := true }).1).2 ++
           [Sig.showMessage "Connect FAILED: Error setting up system components!"])
      else
        ((findComponents env { s with portOpen := true }).1,
         [Sig.openedPort, Sig.showMessage "Comms Open. Checking system components..."] ++
           (findComponents env { s with portOpen := true }).2.1 ++
           [Sig.statusConnect true])) := by
  have hc1 : ¬(s.portOpen = true) := by rw [h1]; simp
  have hc2 : ¬(env.openResult ≠ globals.OK) := fun hx => hx h2
  unfold CommsConnect
  rw [if_neg hc1, if_neg hc2]

/-- Connect environment in which one GT1724 answers (address 0x12) but
no EEPROM, clock synthesizer, I/O expander or reference clock does. -/
def envNoEEPROM : Env :=
  { openResult := globals.OK, pingGT1724 := fun a => a == 0x12,
    pingM24M02 := fun _ => false, pingLMX2594 := fun _ => false,
    pingPCA9557 := fun _ => false, pingSI5340 := fun _ => false }

/-- C1 counterexample: a connect attempt in which discovery fails with
the mandatory-component-missing error MISSING_EEPROM (no EEPROM found;
one BERT core was found first).  The orchestrator does not disconnect:
the port stays open, the GT1724 device record survives, and the caller
observes a successful-connect outcome (`statusConnect true`, and no
`statusConnect false` anywhere) instead of a single failed-connect
outcome. -/
theorem connect_missing_eeprom_counterexample :
    (findComponents envNoEEPROM
        { WorkerState.disconnected with portOpen := true }).2.2
      = globals.MISSING_EEPROM ∧
    (CommsConnect envNoEEPROM WorkerState.disconnected).1.portOpen = true ∧
    (CommsConnect envNoEEPROM WorkerState.disconnected).1.gt1724Set = [0x12] ∧
    ((CommsConnect envNoEEPROM WorkerState.disconnected).2.filter isStatusConnectB)
      = [Sig.statusConnect true] ∧
    Sig.statusConnect false ∉ (CommsConnect envNoEEPROM WorkerState.disconnected).2 := by
  refine ⟨rfl, rfl, rfl, rfl, ?_⟩
  decide

/-- C1 (amended): starting disconnected with a successful port open,
only the MISSING_GT1724 discovery outcome (and the MISSING_LMX_DEFS
code, which discovery never produces) triggers the full teardown — state
restored to disconnected and exactly one connect-status event, a failed
one.  The other mandatory-component-missing outcomes (no EEPROM, no
clock synthesizer, no I/O expander) leave the port open, tear nothing
down, and report a successful connect.  An initialization failure is
likewise not fatal: the InitComponents command never changes the worker
state and never emits a connect-status or teardown event, whatever the
initComponents result. -/
theorem connect_failure_policy (env : Env) :
    (env.openResult = globals.OK →
      (findComponents env { WorkerState.disconnected with portOpen := true }).2.2
          = globals.MISSING_GT1724 →
      (CommsConnect env WorkerState.disconnected).1 = WorkerState.disconnected ∧
      ((CommsConnect env WorkerState.disconnected).2.filter isStatusConnectB)
        = [Sig.statusConnect false]) ∧
    (env.openResult = globals.OK →
      ((findComponents env { WorkerState.disconnected with portOpen := true }).2.2
          = globals.MISSING_EEPROM ∨
       (findComponents env { WorkerState.disconnected with portOpen := true }).2.2
          = globals.MISSING_LMX ∨
       (findComponents env { WorkerState.disconnected with portOpen := true }).2.2
          = globals.MISSING_PCA) →
      (CommsConnect env WorkerState.disconnected).1.portOpen = true ∧
      ((CommsConnect env WorkerState.disconnected).2.filter isStatusConnectB)
        = [Sig.statusConnect true]) ∧
    (∀ (si eep lmx pca gt : List Int) (s : WorkerState),
      (WorkerInitComponents si eep lmx pca gt s).1 = s ∧
      ((WorkerInitComponents si eep lmx pca gt s).2.filter isStatusConnectB) = [] ∧
      ((WorkerInitComponents si eep lmx pca gt s).2.filter isReleasedB) = []) := by
  refine ⟨?_, ?_, ?_⟩
  · intro hopen hr
    have hne : (findComponents env
        { WorkerState.disconnected with portOpen := true }).2.2 ≠ globals.OK := by
      rw [hr]; decide
    have hor : (findComponents env
          { WorkerState.disconnected with portOpen := true }).2.2
            = globals.MISSING_LMX_DEFS ∨
        (findComponents env
          { WorkerState.disconnected with portOpen := true }).2.2
            = globals.MISSING_GT1724 := Or.inr hr
    rw [CommsConnect_open_eval env WorkerState.disconnected rfl hopen,
      if_neg hne, if_pos hor]
    constructor
    · rfl
    · rw [List.filter_append, List.filter_append, List.filter_append,
        findComponents_status_filter, disconnect_status_filter]
      simp [isStatusConnectB]
  · intro hopen hr
    have hne : (findComponents env
        { WorkerState.disconnected with portOpen := true }).2.2 ≠ globals.OK := by
      rcases hr with hr | hr | hr <;> rw [hr] <;> decide
    have hne2 : ¬ ((findComponents env
          { WorkerState.disconnected with portOpen := true }).2.2
            = globals.MISSING_LMX_DEFS ∨
        (findComponents env
          { WorkerState.disconnected with portOpen := true }).2.2
            = globals.MISSING_GT1724) := by
      rcases hr with hr | hr | hr <;> rw [hr] <;> decide
    rw [CommsConnect_open_eval env WorkerState.disconnected rfl hopen,
      if_neg hne, if_neg hne2]
    constructor
    · rw [findComponents_portOpen]
    · rw [List.filter_append, List.filter_append, findComponents_status_filter]
      simp [isStatusConnectB]
  · intro si eep lmx pca gt s
    refine ⟨rfl, rfl, rfl⟩

/-- Witness for C1 (amended): an environment in which no GT1724 answers
(discovery fails with MISSING_GT1724) exercises the teardown clause, and
a failing SI5340 init list exercises the init clause. -/
theorem connect_failure_policy_witness :
    ((CommsConnect envNone WorkerState.disconnected).1 = WorkerState.disconnected ∧
      ((CommsConnect envNone WorkerState.disconnected).2.filter isStatusConnectB)
        = [Sig.statusConnect false]) ∧
    ((WorkerInitComponents [globals.GEN_ERROR] [] [] [] []
        { WorkerState.disconnected with portOpen := true }).1
      = { WorkerState.disconnected with portOpen := true } ∧
      ((WorkerInitComponents [globals.GEN_ERROR] [] [] [] []
          { WorkerState.disconnected with portOpen := true }).2.filter
        isStatusConnectB) = [] ∧
      ((WorkerInitComponents [globals.GEN_ERROR] [] [] [] []
          { WorkerState.disconnected with portOpen := true }).2.filter
        isReleasedB) = []) :=
  ⟨(connect_failure_policy envNone).1 rfl rfl,
   (connect_failure_policy envNone).2.2 [globals.GEN_ERROR] [] [] [] [] _⟩

/-! ### Initialisation ordering (C2) -/

/-- Strict precedence of initialisation-trace entries: an earlier entry
belongs to an earlier family in the fixed order, or to the same family
with a smaller discovery index. -/
def entLt (a b : InitEntry) : Prop :=
  a.1.initRank < b.1.initRank ∨ (a.1 = b.1 ∧ a.2.1 < b.2.1)

/-- The full tagged trace of one family when every init succeeds. -/
def tagFam (f : Family) (i : Nat) : List Int → List InitEntry
  | [] => []
  | r :: rest => (f, i, r) :: tagFam f (i + 1) rest

lemma initFamily_mem (f : Family) :
    ∀ (i : Nat) (rs : List Int), ∀ e ∈ (initFamily f i rs).1, e.1 = f ∧ i ≤ e.2.1
  | i, [] => by simp [initFamily]
  | i, r :: rest => by
    intro e he
    by_cases h : r = globals.OK
    · simp only [initFamily, if_pos h] at he
      rcases List.mem_cons.mp he with heq | he2
      · subst heq
        exact ⟨rfl, le_refl i⟩
      · obtain ⟨hf, hi⟩ := initFamily_mem f (i + 1) rest e he2
        exact ⟨hf, le_trans (Nat.le_succ i) hi⟩
    · simp only [initFamily, if_neg h] at he
      have heq := List.mem_singleton.mp he
      subst heq
      exact ⟨rfl, le_refl i⟩

lemma initFamily_pairwise (f : Family) :
    ∀ (i : Nat) (rs : List Int),
      (initFamily f i rs).1.Pairwise (fun a b => a.2.1 < b.2.1)
  | i, [] => by simp [initFamily]
  | i, r :: rest => by
    by_cases h : r = globals.OK
    · simp only [initFamily, if_pos h]
      rw [List.pairwise_cons]
      constructor
      · intro b hb
        exact lt_of_lt_of_le (Nat.lt_succ_self i) (initFamily_mem f (i + 1) rest b hb).2
      · exact initFamily_pairwise f (i + 1) rest
    · simp [initFamily, if_neg h]

lemma initFamily_none (f : Family) :
    ∀ (i : Nat) (rs : List Int), (initFamily f i rs).2 = none →
      (initFamily f i rs).1 = tagFam f i rs ∧
      ∀ e ∈ (initFamily f i rs).1, e.2.2 = globals.OK
  | i, [] => by simp [initFamily, tagFam]
  | i, r :: rest => by
    intro hn
    by_cases h : r = globals.OK
    · simp only [initFamily, if_pos h] at hn ⊢
      obtain ⟨ht, hres⟩ := initFamily_none f (i + 1) rest hn
      constructor
      · rw [tagFam, ht]
      · intro e he
        rcases List.mem_cons.mp he with heq | he2
        · subst heq
          exact h
        · exact hres e he2
    · simp only [initFamily, if_neg h] at hn
      exact absurd hn (by simp)

lemma initFamily_some (f : Family) :
    ∀ (i : Nat) (rs : List Int) (er : Int), (initFamily f i rs).2 = some er →
      er ≠ globals.OK ∧
      ∃ pre last, (initFamily f i rs).1 = pre ++ [last] ∧ last.2.2 = er ∧
        ∀ x ∈ pre, x.2.2 = globals.OK
  | i, [], er => by simp [initFamily]
  | i, r :: rest, er => by
    intro hs
    by_cases h : r = globals.OK
    · simp only [initFamily, if_pos h] at hs ⊢
      obtain ⟨hner, pre, last, ht, hlast, hpre⟩ := initFamily_some f (i + 1) rest er hs
      refine ⟨hner, (f, i, r) :: pre, last, ?_, hlast, ?_⟩
      · rw [ht]
        rfl
      · intro x hx
        rcases List.mem_cons.mp hx with heq | hx2
        · subst heq
          exact h
        · exact hpre x hx2
    · simp only [initFamily, if_neg h] at hs ⊢
      have her : r = er := by
        simpa using hs
      subst her
      exact ⟨h, [], (f, i, r), rfl, rfl, by simp⟩

/-- Invariant carried through the family pipeline: the trace so far is
ordered, mentions only families of rank < k, is all-OK when no error is
pending, and ends at its (non-OK) failure point when an error is
pending. -/
def GoodAcc (k : Nat) (acc : List InitEntry × Option Int) : Prop :=
  acc.1.Pairwise entLt ∧
  (∀ e ∈ acc.1, e.1.initRank < k) ∧
  (acc.2 = none → ∀ e ∈ acc.1, e.2.2 = globals.OK) ∧
  (∀ er : Int, acc.2 = some er → er ≠ globals.OK ∧
    ∃ pre last, acc.1 = pre ++ [last] ∧ last.2.2 = er ∧
      ∀ x ∈ pre, x.2.2 = globals.OK)

lemma thenFamily_good {acc : List InitEntry × Option Int} (f : Family)
    (rs : List Int) (hg : GoodAcc f.initRank acc) :
    GoodAcc (f.initRank + 1) (thenFamily acc f rs) := by
  obtain ⟨hpw, hrank, hnone, hsome⟩ := hg
  cases hacc : acc.2 with
  | some er =>
    have heq : thenFamily acc f rs = (acc.1, some er) := by
      simp only [thenFamily, hacc]
    rw [heq]
    refine ⟨hpw, ?_, ?_, ?_⟩
    · intro e he
      exact Nat.lt_succ_of_lt (hrank e he)
    · intro hno
      exact absurd hno (by simp)
    · intro er2 hs2
      have her2 : er = er2 := by simpa using hs2
      subst her2
      exact hsome er hacc
  | none =>
    have heq : thenFamily acc f rs
        = (acc.1 ++ (initFamily f 0 rs).1, (initFamily f 0 rs).2) := by
      simp only [thenFamily, hacc]
    rw [heq]
    have hfam := initFamily_mem f 0 rs
    refine ⟨?_, ?_, ?_, ?_⟩
    · rw [List.pairwise_append]
      refine ⟨hpw, ?_, ?_⟩
      · refine (initFamily_pairwise f 0 rs).imp_of_mem ?_
        intro a b ha hb hab
        exact Or.inr ⟨by rw [(hfam a ha).1, (hfam b hb).1], hab⟩
      · intro a ha b hb
        refine Or.inl (lt_of_lt_of_le (hrank a ha) (le_of_eq ?_))
        rw [(hfam b hb).1]
    · intro e he
      rcases List.mem_append.mp he with h | h
      · exact Nat.lt_succ_of_lt (hrank e h)
      · rw [(hfam e h).1]
        exact Nat.lt_succ_self _
    · intro hno e he
      rcases List.mem_append.mp he with h | h
      · exact hnone hacc e h
      · exact (initFamily_none f 0 rs hno).2 e h
    · intro er hs2
      obtain ⟨hner, pre, last, ht, hlast, hpre⟩ := initFamily_some f 0 rs er hs2
      refine ⟨hner, acc.1 ++ pre, last, ?_, hlast, ?_⟩
      · rw [ht, List.append_assoc]
      · intro x hx
        rcases List.mem_append.mp hx with h | h
        · exact hnone hacc x h
        · exact hpre x h

lemma thenFamily_none {acc : List InitEntry × Option Int} {f : Family}
    {rs : List Int} (h : (thenFamily acc f rs).2 = none) :
    acc.2 = none ∧ (initFamily f 0 rs).2 = none ∧
    (thenFamily acc f rs).1 = acc.1 ++ tagFam f 0 rs := by
  cases hacc : acc.2 with
  | some er =>
    have heq : thenFamily acc f rs = (acc.1, some er) := by
      simp only [thenFamily, hacc]
    rw [heq] at h
    exact absurd h (by simp)
  | none =>
    have heq : thenFamily acc f rs
        = (acc.1 ++ (initFamily f 0 rs).1, (initFamily f 0 rs).2) := by
      simp only [thenFamily, hacc]
    rw [heq] at h ⊢
    refine ⟨rfl, h, ?_⟩
    rw [(initFamily_none f 0 rs h).1]

lemma initComponents_fst (si eep lmx pca gt : List Int) :
    (initComponents si eep lmx pca gt).1
      = (thenFamily (thenFamily (thenFamily (thenFamily (thenFamily ([], none)
          Family.si5340 si) Family.m24m02 eep) Family.lmx2594 lmx)
          Family.pca9557 pca) Family.gt1724 gt).1 := rfl

lemma initComponents_snd (si eep lmx pca gt : List Int) :
    (initComponents si eep lmx pca gt).2
      = (thenFamily (thenFamily (thenFamily (thenFamily (thenFamily ([], none)
          Family.si5340 si) Family.m24m02 eep) Family.lmx2594 lmx)
          Family.pca9557 pca) Family.gt1724 gt).2.getD globals.OK := rfl

/-- C2: initComponents calls init() on every reference-clock device
before any EEPROM device, every EEPROM before any clock synthesizer,
every clock synthesizer before any I/O expander, and every I/O expander
before any BERT-core device, within each family in discovery order
(the trace is pairwise-ordered by family rank then index); when the
result is OK the trace is exactly the full tagged device list of the
five families in that order, all successful; and when the result is an
error the trace ends immediately at the single failing init() — all
earlier calls succeeded, and no further call was made in any family. -/
theorem initComponents_ordering (si eep lmx pca gt : List Int) :
    ((initComponents si eep lmx pca gt).1.Pairwise entLt) ∧
    ((initComponents si eep lmx pca gt).2 = globals.OK →
      ((initComponents si eep lmx pca gt).1
        = tagFam Family.si5340 0 si ++ tagFam Family.m24m02 0 eep ++
          tagFam Family.lmx2594 0 lmx ++ tagFam Family.pca9557 0 pca ++
          tagFam Family.gt1724 0 gt) ∧
      ∀ e ∈ (initComponents si eep lmx pca gt).1, e.2.2 = globals.OK) ∧
    ((initComponents si eep lmx pca gt).2 ≠ globals.OK →
      ∃ pre last, (initComponents si eep lmx pca gt).1 = pre ++ [last] ∧
        last.2.2 = (initComponents si eep lmx pca gt).2 ∧
        ∀ x ∈ pre, x.2.2 = globals.OK) := by
  have g0 : GoodAcc Family.si5340.initRank
      (([], none) : List InitEntry × Option Int) := by
    refine ⟨List.Pairwise.nil, ?_, ?_, ?_⟩
    · intro e he
      exact absurd he (List.not_mem_nil e)
    · intro _ e he
      exact absurd he (List.not_mem_nil e)
    · intro er hs
      exact absurd hs (by simp)
  have g1 := thenFamily_good Family.si5340 si g0
  have g2 := thenFamily_good Family.m24m02 eep g1
  have g3 := thenFamily_good Family.lmx2594 lmx g2
  have g4 := thenFamily_good Family.pca9557 pca g3
  have g5 := thenFamily_good Family.gt1724 gt g4
  refine ⟨g5.1, ?_, ?_⟩
  · intro hok
    have hok2 : (thenFamily (thenFamily (thenFamily (thenFamily (thenFamily
        ([], none) Family.si5340 si) Family.m24m02 eep) Family.lmx2594 lmx)
        Family.pca9557 pca) Family.gt1724 gt).2.getD globals.OK = globals.OK := hok
    have hnone5 : (thenFamily (thenFamily (thenFamily (thenFamily (thenFamily
        ([], none) Family.si5340 si) Family.m24m02 eep) Family.lmx2594 lmx)
        Family.pca9557 pca) Family.gt1724 gt).2 = none := by
      cases hA2 : (thenFamily (thenFamily (thenFamily (thenFamily (thenFamily
          ([], none) Family.si5340 si) Family.m24m02 eep) Family.lmx2594 lmx)
          Family.pca9557 pca) Family.gt1724 gt).2 with
      | none => rfl
      | some er =>
        rw [hA2] at hok2
        simp at hok2
        exact absurd hok2 (g5.2.2.2 er hA2).1
    obtain ⟨h4n, -, he5⟩ := thenFamily_none hnone5
    obtain ⟨h3n, -, he4⟩ := thenFamily_none h4n
    obtain ⟨h2n, -, he3⟩ := thenFamily_none h3n
    obtain ⟨h1n, -, he2⟩ := thenFamily_none h2n
    obtain ⟨-, -, he1⟩ := thenFamily_none h1n
    constructor
    · rw [initComponents_fst, he5, he4, he3, he2, he1]
      simp [List.append_assoc]
    · intro e he
      exact g5.2.2.1 hnone5 e he
  · intro hne
    have hne2 : (thenFamily (thenFamily (thenFamily (thenFamily (thenFamily
        ([], none) Family.si5340 si) Family.m24m02 eep) Family.lmx2594 lmx)
        Family.pca9557 pca) Family.gt1724 gt).2.getD globals.OK ≠ globals.OK := hne
    cases hA2 : (thenFamily (thenFamily (thenFamily (thenFamily (thenFamily
        ([], none) Family.si5340 si) Family.m24m02 eep) Family.lmx2594 lmx)
        Family.pca9557 pca) Family.gt1724 gt).2 with
    | none =>
      rw [hA2] at hne2
      simp at hne2
    | some er =>
      obtain ⟨-, pre, last, ht, hlast, hpre⟩ := g5.2.2.2 er hA2
      refine ⟨pre, last, ?_, ?_, hpre⟩
      · rw [initComponents_fst]
        exact ht
      · rw [initComponents_snd, hA2]
        simpa using hlast

/-- Witness for C2 at a concrete device population in which the LMX2594
init fails. -/
theorem initComponents_ordering_witness :
    ((initComponents [globals.OK] [globals.OK] [globals.GEN_ERROR]
        [globals.OK] [globals.OK]).1.Pairwise entLt) :=
  (initComponents_ordering [globals.OK] [globals.OK] [globals.GEN_ERROR]
    [globals.OK] [globals.OK]).1

end SB3204
